import Mathlib

set_option maxRecDepth 10000

/-!
Verification development for the tunnel repository's request/response
correlation engine.  The definitions below are shallow embeddings of the Go
sources:

* `src/lambdas/http-proxy/main.go` — Edge Handler (proxy ingress, reconnect
  grace window, chunked request push, response polling, poll endpoint);
* `src/infra/s3.tf` (embedded CLI agent code, package `proxy`) — Agent
  (chunk reassembly, response mode selection, S3 staging, SSE streaming);
* `src/lambdas/tunnel-proxy/main.go` — Dispatcher (WebSocket `$default`
  route: PING / RESPONSE / proxy_response) and the disconnect handler;
* `src/lambdas/tunnel-connect/main.go` — connect hook (Bind);
* `src/lambdas/create-tunnel/main.go` — tunnel creation.

Byte strings (Go `string` / `[]byte`) are modelled as `List Nat`; DynamoDB
items as association lists of dynamically typed attribute values; request
frames and store operations as inductive types.  Loops that poll on a real
ticker are modelled with an explicit tick index (one tick = one loop
iteration) and a fuel argument equal to the number of iterations the Go
deadline admits.
-/

namespace TunnelSpec

/-- Go byte strings (`string` values are byte sequences). -/
abbrev Bytes := List Nat

/-- UTF-8/ASCII bytes of a Lean string (model of a Go string constant; the
sources only compare ASCII text). -/
def strBytes (s : String) : Bytes := s.toList.map Char.toNat

/- ────────────────────────────────────────────────────────────────────────
   Edge Handler: request-body chunking (http-proxy/main.go, handleProxy)
   ──────────────────────────────────────────────────────────────────────── -/

/-- `const wsChunkSize = 90 * 1024` in `handleProxy`. -/
def wsChunkSize : Nat := 90 * 1024

/-- `totalChunks` as computed by `handleProxy`: `0` unless the body exceeds
`wsChunkSize`, else `(len(body) + wsChunkSize - 1) / wsChunkSize`. -/
def totalChunksFor (body : Bytes) : Nat :=
  if body.length > wsChunkSize then (body.length + wsChunkSize - 1) / wsChunkSize else 0

/-- The `i`-th chunk the edge sends: `body[start:end]` with
`start := i*wsChunkSize`, `end := min (start+wsChunkSize) (len body)`. -/
def requestChunk (body : Bytes) (i : Nat) : Bytes :=
  let start := i * wsChunkSize
  let stop := min (start + wsChunkSize) body.length
  (body.take stop).drop start

/-- WebSocket frames the edge pushes to the agent for one request
(`proxy_chunk` frames then the main `proxy` frame).  The `proxy` frame also
carries the presigned response-staging handle (`s3_put_url`,
`s3_response_key`) exactly as `handleProxy` builds it. -/
inductive Frame
  | proxyChunk (requestId : String) (chunkIndex : Nat) (data : Bytes)
  | proxy (requestId : String) (body : Bytes) (totalChunks : Nat)
      (s3PutURL s3ResponseKey : String)

/-- The ordered list of frames `handleProxy` sends for a request body:
if `len(body) > wsChunkSize`, one `proxy_chunk` per index `0..N-1` in
increasing order followed by a `proxy` frame with empty body and
`total_chunks = N`; otherwise a single inline `proxy` frame. -/
def edgeFrames (rid : String) (s3PutURL s3ResponseKey : String) (body : Bytes) : List Frame :=
  if body.length > wsChunkSize then
    ((List.range (totalChunksFor body)).map
        (fun i => Frame.proxyChunk rid i (requestChunk body i)))
      ++ [Frame.proxy rid [] (totalChunksFor body) s3PutURL s3ResponseKey]
  else [Frame.proxy rid body 0 s3PutURL s3ResponseKey]

/- ────────────────────────────────────────────────────────────────────────
   Agent: chunk buffering and request reassembly (s3.tf / package proxy:
   handleProxyChunk, handleProxyRequest)
   ──────────────────────────────────────────────────────────────────────── -/

/-- One request's chunk buffer: `chunkBuffers[requestID]`, a Go
`map[int]string` (missing index reads as the empty string). -/
abbrev ChunkBuffer := Nat → Option Bytes

/-- All per-request chunk buffers: `p.chunkBuffers`. -/
abbrev ChunkBuffers := String → ChunkBuffer

/-- The agent starts with no buffered chunks. -/
def emptyBuffers : ChunkBuffers := fun _ _ => none

/-- `handleProxyChunk`: store `message.Data.data` under
`chunkBuffers[request_id][chunk_index]`. -/
def handleProxyChunk (bufs : ChunkBuffers) (rid : String) (i : Nat) (d : Bytes) :
    ChunkBuffers :=
  fun r => if r = rid then (fun j => if j = i then some d else bufs rid j) else bufs r

/-- The reassembly loop in `handleProxyRequest`:
`for i := 0; i < totalChunks; i++ { buf.WriteString(chunks[i]) }` — a missing
index contributes the empty string (Go map zero value). -/
def assembleChunks (chunks : ChunkBuffer) (totalChunks : Nat) : Bytes :=
  (List.range totalChunks).flatMap (fun i => (chunks i).getD [])

/-- Outcome of the agent's `handleProxyRequest` up to the local HTTP call:
the request is silently dropped (missing request id), answered with a
5xx `proxy_response` error (S3 download failure), or forwarded to the local
server with the resolved body. -/
inductive AgentOutcome
  | dropped
  | errorSent (msg : String)
  | forward (body : Bytes)
deriving DecidableEq

/-- Body resolution in `handleProxyRequest`: drop if `request_id` is empty;
if `s3_request_get_url` is set and the frame body is empty, download the
body from S3 (failure sends an error response); then, if `total_chunks > 0`,
the assembled chunks replace the body; the result is forwarded. -/
def agentHandleProxy (rid : String) (s3RequestGetURL : String)
    (s3Fetch : Except String Bytes) (chunks : ChunkBuffer)
    (frameBody : Bytes) (totalChunks : Nat) : AgentOutcome :=
  if rid = "" then .dropped
  else
    let fetched : Except String Bytes :=
      if decide (s3RequestGetURL ≠ "") && frameBody.isEmpty then s3Fetch
      else .ok frameBody
    match fetched with
    | .error e => .errorSent e
    | .ok body0 =>
        .forward (if totalChunks > 0 then assembleChunks chunks totalChunks else body0)

/-- One step of the agent's message loop: a `proxy_chunk` frame is buffered
(`handleProxyChunk`); a `proxy` frame takes the request's buffer, deletes it
(`delete(p.chunkBuffers, requestID)`), and resolves the body
(`handleProxyRequest`).  Frames from the edge's `/t/` path never carry
`s3_request_get_url`, so it is `""` here. -/
def agentStep : ChunkBuffers × Option AgentOutcome → Frame → ChunkBuffers × Option AgentOutcome
  | (bufs, out), Frame.proxyChunk rid i d => (handleProxyChunk bufs rid i d, out)
  | (bufs, _), Frame.proxy rid body n _ _ =>
      (fun r => if r = rid then (fun _ => none) else bufs r,
       some (agentHandleProxy rid "" (Except.ok []) (bufs rid) body n))

/-- Run the agent's message loop over a frame sequence, returning the final
buffers and the outcome of the last `proxy` frame processed. -/
def agentRun (frames : List Frame) : ChunkBuffers × Option AgentOutcome :=
  frames.foldl agentStep (emptyBuffers, none)

/-- Buffer state after the agent received chunks `0..n-1` of `body` for
request `rid` (used to state the buffer lemma). -/
def chunkBuffersOf (rid : String) (body : Bytes) (n : Nat) : ChunkBuffers :=
  fun r j => if r = rid ∧ j < n then some (requestChunk body j) else none

/- ────────────────────────────────────────────────────────────────────────
   Agent: response mode selection (s3.tf / package proxy,
   handleProxyRequest response phase and streamProxyResponse)
   ──────────────────────────────────────────────────────────────────────── -/

/-- `const chunkSize = 90 * 1024` in the agent. -/
def chunkSize : Nat := 90 * 1024

/-- `const s3UploadThreshold = 256 * 1024`. -/
def s3UploadThreshold : Nat := 256 * 1024

/-- The WebSocket frame ceiling the agent checks the serialized terminal
frame against (`128*1024` in the source; `FMAX` in the specification). -/
def fMAX : Nat := 128 * 1024

/-- Go `strings.ToLower` on one ASCII byte. -/
def goToLowerByte (b : Nat) : Nat := if 65 ≤ b ∧ b ≤ 90 then b + 32 else b

/-- Whether `p` is a leading block of `s` (helper for substring search). -/
def bytesLead (p : Bytes) (s : Bytes) : Bool :=
  match p, s with
  | [], _ => true
  | _ :: _, [] => false
  | a :: p1, b :: s1 => a == b && bytesLead p1 s1

/-- Go `strings.Contains s sub` at byte level. -/
def goHasSub (p : Bytes) : Bytes → Bool
  | [] => bytesLead p []
  | b :: s1 => bytesLead p (b :: s1) || goHasSub p s1

/-- `isBinaryContentType`: lowercase the content type, then check it
contains any of the six binary media markers. -/
def isBinaryContentType (ct : Bytes) : Bool :=
  let lc := ct.map goToLowerByte
  [strBytes "video/", strBytes "audio/", strBytes "image/",
   strBytes "application/octet-stream", strBytes "application/pdf",
   strBytes "application/zip"].any (fun p => goHasSub p lc)

/-- One byte escaped as Go's `encoding/json` escapes string contents
(HTML escaping on, lowercase hex): `"` `\` get a backslash, newline,
carriage return and tab get two-byte escapes, `<` `>` `&` and other control
bytes get six-byte `\u00xx` escapes, everything else passes through.
(Multi-byte UTF-8 passthrough and the U+2028/U+2029 corner case are not
modelled; all inputs used here are ASCII.) -/
def jsonEscapeByte (b : Nat) : Bytes :=
  let hexDigit : Nat → Nat := fun d => if d < 10 then 48 + d else 87 + d
  if b = 34 ∨ b = 92 then [92, b]
  else if b = 10 then [92, 110]
  else if b = 13 then [92, 114]
  else if b = 9 then [92, 116]
  else if b = 60 ∨ b = 62 ∨ b = 38 ∨ b < 32 then
    [92, 117, 48, 48, hexDigit (b / 16), hexDigit (b % 16)]
  else [b]

/-- Escape a whole byte string for JSON. -/
def jsonEscapeBytes (s : Bytes) : Bytes := s.flatMap jsonEscapeByte

/-- A JSON string literal: quote, escaped contents, quote. -/
def jsonQuote (b : Bytes) : Bytes := 34 :: jsonEscapeBytes b ++ [34]

/-- A JSON object key plus the colon: `"key":` (keys here never need
escaping). -/
def jsonKey (s : String) : Bytes := 34 :: strBytes s ++ [34, 58]

/-- Decimal digits of a natural number (Go integer formatting), with fuel. -/
def decDigits : Nat → Nat → Bytes
  | 0, _ => []
  | fuel + 1, n => if n < 10 then [48 + n] else decDigits fuel (n / 10) ++ [48 + n % 10]

/-- Decimal byte string of a natural number. -/
def natDecimalBytes (n : Nat) : Bytes := decDigits (n + 1) n

/-- Insertion of one key into a list sorted by string key (helper for the
sorted-key JSON map encoding). -/
def insertByKey (p : String × String) : List (String × String) → List (String × String)
  | [] => [p]
  | q :: rest => if decide (p.1 ≤ q.1) then p :: q :: rest else q :: insertByKey p rest

/-- Sort header entries by key, as Go's `encoding/json` does for maps. -/
def sortByKey : List (String × String) → List (String × String)
  | [] => []
  | p :: rest => insertByKey p (sortByKey rest)

/-- JSON encoding of a `map[string]string` (sorted keys). -/
def headersJsonBytes (hs : List (String × String)) : Bytes :=
  123 :: (List.intercalate [44]
    ((sortByKey hs).map (fun p => jsonKey p.1 ++ jsonQuote (strBytes p.2)))) ++ [125]

/-- The bytes `json.Marshal` produces for the agent's terminal inline
`proxy_response` message
(`WebSocketMessage{Action:"proxy_response", Data:{request_id,
response_body, response_headers, status_code}}`; struct field order for the
envelope, sorted keys for the data map). -/
def proxyResponseFrameBytes (rid : String) (statusCode : Nat)
    (hdrs : List (String × String)) (body : Bytes) : Bytes :=
  [123] ++ jsonKey "action" ++ jsonQuote (strBytes "proxy_response") ++ [44]
    ++ jsonKey "data" ++ [123]
    ++ jsonKey "request_id" ++ jsonQuote (strBytes rid) ++ [44]
    ++ jsonKey "response_body" ++ jsonQuote body ++ [44]
    ++ jsonKey "response_headers" ++ headersJsonBytes hdrs ++ [44]
    ++ jsonKey "status_code" ++ natDecimalBytes statusCode
    ++ [125, 125]

/-- The four response modes of `handleProxyRequest` after the local call. -/
inductive RespMode
  | sse
  | staged
  | chunked (totalChunks effectiveChunkSize : Nat)
  | inlineResp
deriving DecidableEq

/-- Response mode selection of `handleProxyRequest` (s3.tf agent code):
SSE if the `Content-Type` contains `text/event-stream` (checked before the
body is even read); else stage to S3 when both presigned handles are present
and (body exceeds `s3UploadThreshold` or the content type is binary) and
the PUT succeeds; else chunk if the serialized terminal frame exceeds
128 KiB (with the JSON-overhead-aware effective chunk size); else inline. -/
def agentResponseMode (rid : String) (statusCode : Nat)
    (respHeaders : List (String × String)) (contentType : String)
    (respBody : Bytes) (s3PutURL s3ResponseKey : String) (uploadOk : Bool) : RespMode :=
  if goHasSub (strBytes "text/event-stream") (strBytes contentType) then .sse
  else if (decide (s3PutURL ≠ "") && decide (s3ResponseKey ≠ "")
            && (decide (respBody.length > s3UploadThreshold)
                || isBinaryContentType (strBytes contentType)))
          && uploadOk then .staged
  else
    let testLen := (proxyResponseFrameBytes rid statusCode respHeaders respBody).length
    if testLen > fMAX then
      let overhead := testLen - respBody.length
      let eff0 := 120 * 1024 - overhead
      let eff := if eff0 = 0 || eff0 > chunkSize then chunkSize else eff0
      .chunked ((respBody.length + eff - 1) / eff) eff
    else .inlineResp

/-- Formalization of claim C4 as stated: staging happens *only when* the
serialized terminal frame would exceed `fMAX`, a presigned handle is
available, and the body is large or binary. -/
def c4StagingOnlyWhen (rid : String) (statusCode : Nat)
    (hdrs : List (String × String)) (ct : String) (body : Bytes)
    (s3PutURL s3ResponseKey : String) (uploadOk : Bool) : Prop :=
  agentResponseMode rid statusCode hdrs ct body s3PutURL s3ResponseKey uploadOk = .staged →
    ((proxyResponseFrameBytes rid statusCode hdrs body).length > fMAX
      ∧ (s3PutURL ≠ "" ∧ s3ResponseKey ≠ "")
      ∧ (body.length > s3UploadThreshold ∨ isBinaryContentType (strBytes ct) = true))

/- ────────────────────────────────────────────────────────────────────────
   DynamoDB items and store operations
   ──────────────────────────────────────────────────────────────────────── -/

/-- A DynamoDB attribute value, covering the member types the sources use
(`S`, `N`, `BOOL`, `M`; `N` values written by this code are integers). -/
inductive AttrVal
  | s (v : String)
  | n (v : Int)
  | b (v : Bool)
  | m (v : List (String × AttrVal))

/-- A raw DynamoDB item: attribute name → value. -/
abbrev Item := List (String × AttrVal)

/-- Attribute lookup (`rawItem[name]`). -/
def getAttr (it : Item) (name : String) : Option AttrVal :=
  (it.find? (fun p => p.1 = name)).map (fun p => p.2)

/-- A store operation issued against the pending-requests table. -/
inductive StoreOp
  | get (requestId : String)
  | update (requestId : String) (sets : List (String × AttrVal)) (removes : List String)
  | put (requestId : String)
  | delete (requestId : String)

/-- Whether a store operation is a plain read. -/
def isGetOp (op : StoreOp) : Bool :=
  match op with
  | StoreOp.get _ => true
  | _ => false

/- ────────────────────────────────────────────────────────────────────────
   Dispatcher (tunnel-proxy/main.go): handler and handleProxyResponse
   ──────────────────────────────────────────────────────────────────────── -/

/-- A decoded JSON value inside `message.Data` (`map[string]interface{}`;
numbers arrive as `float64`, integral here). -/
inductive GoVal
  | str (s : String)
  | num (n : Int)
  | boolean (b : Bool)
  | obj (fields : List (String × GoVal))

/-- A parsed `models.WebSocketMessage` as the dispatcher sees it (only the
`action` and `data` fields are consulted by the handlers modelled here). -/
structure WsMessage where
  action : String
  data : List (String × GoVal)

/-- Response body shapes the Lambda handlers produce (abstracting the JSON
text `json.Marshal` would emit). -/
inductive RespBody
  | errJson (msg : String)
  | msgJson (msg : String)
  | statusJson (status : String)
  | inlineBody (body : String)
  | s3Object (key : String)
  | pipeStream
deriving DecidableEq

/-- An API Gateway Lambda HTTP result (status code and body; the poll /
proxy endpoints additionally carry headers, see `EdgeResp`). -/
structure WsResp where
  statusCode : Int
  body : RespBody

/-- `message.Data[k]` lookup. -/
def lookupData (d : List (String × GoVal)) (k : String) : Option GoVal :=
  (d.find? (fun p => p.1 = k)).map (fun p => p.2)

/-- Go's `v, _ := data[k].(string)`: a string value or the zero string. -/
def dataStr (d : List (String × GoVal)) (k : String) : String :=
  match lookupData d k with
  | some (.str s) => s
  | _ => ""

/-- Go's `if v, ok := data[k].(float64); ok { x = int(v) }` with default. -/
def dataNumD (d : List (String × GoVal)) (k : String) (dflt : Int) : Int :=
  match lookupData d k with
  | some (.num n) => n
  | _ => dflt

/-- Header extraction in `handleProxyResponse`: a `map[string]interface{}`
keeping string-valued entries only. -/
def dataHeaders (d : List (String × GoVal)) (k : String) : List (String × String) :=
  match lookupData d k with
  | some (.obj m) =>
      m.filterMap (fun p => match p.2 with
        | GoVal.str s => some (p.1, s)
        | _ => none)
  | _ => []

/-- `handleProxyResponse` (tunnel-proxy/main.go lines 122–186): require a
`request_id`; then issue one `UpdateItem` (no prior `GetItem`) that sets
`status=completed`, `response_status`, `response_headers` and
`response_body`. -/
def handleProxyResponse (d : List (String × GoVal)) : WsResp × List StoreOp :=
  let requestID := dataStr d "request_id"
  if requestID = "" then (⟨400, .errJson "Request ID is required"⟩, [])
  else
    let statusCode := dataNumD d "status_code" 200
    let responseHeaders := dataHeaders d "response_headers"
    let responseBody := dataStr d "response_body"
    (⟨200, .msgJson "Proxy response processed"⟩,
     [StoreOp.update requestID
        [("status", AttrVal.s "completed"),
         ("response_status", AttrVal.n statusCode),
         ("response_headers",
          AttrVal.m (responseHeaders.map (fun p => (p.1, AttrVal.s p.2)))),
         ("response_body", AttrVal.s responseBody)] []])

/-- The dispatcher's `handler` switch (tunnel-proxy/main.go lines 56–66):
`PING` replies PONG over the management API (no store access), `RESPONSE`
is acknowledged without effect, `proxy_response` patches the store, and any
other action is answered with a 400 error response. -/
def dispatcherHandle (msg : WsMessage) : WsResp × List StoreOp :=
  if msg.action = "PING" then (⟨200, .msgJson "PONG sent"⟩, [])
  else if msg.action = "RESPONSE" then (⟨200, .msgJson "Response received"⟩, [])
  else if msg.action = "proxy_response" then handleProxyResponse msg.data
  else (⟨400, .errJson ("Unknown message action: " ++ msg.action)⟩, [])

/-- Whether `sets` assigns attribute `name`. -/
def setsAttr (sets : List (String × AttrVal)) (name : String) : Bool :=
  sets.any (fun p => p.1 = name)

/-- Whether the operation list is exactly one update of `rid` with no
removes (the shape of a single atomic patch). -/
def isSingleUpdate (ops : List StoreOp) (rid : String) : Bool :=
  match ops with
  | [StoreOp.update r _ []] => r = rid
  | _ => false

/-- The attribute assignments of the first update operation (empty if the
operation list is not a single update). -/
def patchSetsOf (ops : List StoreOp) : List (String × AttrVal) :=
  match ops with
  | [StoreOp.update _ sets _] => sets
  | _ => []

/-- Whether any operation in the list assigns attribute `name`. -/
def opsSetAttr (ops : List StoreOp) (name : String) : Bool :=
  ops.any (fun op => match op with
    | StoreOp.update _ sets _ => setsAttr sets name
    | _ => false)

/-- Formalization of claim C1 as stated: on a `proxy_response` frame the
dispatcher issues a single atomic update, with no prior read, setting
`status=completed`, `response_status`, `response_headers`, and — keyed on
the frame's contents — exactly one of the inline `response_body`, or
`s3_response_key` together with `s3_response_ready=true`, or a recorded
`total_chunks` with empty inline body. -/
def c1ClaimAt (msg : WsMessage) : Prop :=
  msg.action = "proxy_response" → dataStr msg.data "request_id" ≠ "" →
    (isSingleUpdate (dispatcherHandle msg).2 (dataStr msg.data "request_id") = true
     ∧ setsAttr (patchSetsOf (dispatcherHandle msg).2) "status" = true
     ∧ setsAttr (patchSetsOf (dispatcherHandle msg).2) "response_status" = true
     ∧ setsAttr (patchSetsOf (dispatcherHandle msg).2) "response_headers" = true
     ∧ (if dataStr msg.data "s3_response_key" ≠ "" then
          setsAttr (patchSetsOf (dispatcherHandle msg).2) "s3_response_key" = true
          ∧ setsAttr (patchSetsOf (dispatcherHandle msg).2) "s3_response_ready" = true
        else if dataNumD msg.data "total_chunks" 0 > 0 then
          setsAttr (patchSetsOf (dispatcherHandle msg).2) "total_chunks" = true
        else
          setsAttr (patchSetsOf (dispatcherHandle msg).2) "response_body" = true))

/-- Formalization of claim C2 as stated: response/stream chunk frames patch
`stream_chunk_{index}`, `proxy_stream_start` patches the streaming
attributes, `proxy_stream_end` patches `stream_done`, and an unknown action
is logged and dropped rather than answered with an error. -/
def c2ClaimAt (msg : WsMessage) : Prop :=
  ((msg.action = "proxy_response_chunk" ∨ msg.action = "proxy_stream_chunk") →
     opsSetAttr (dispatcherHandle msg).2
       ("stream_chunk_" ++ toString (dataNumD msg.data "chunk_index" 0).toNat) = true)
  ∧ (msg.action = "proxy_stream_start" →
       opsSetAttr (dispatcherHandle msg).2 "stream_status" = true
       ∧ opsSetAttr (dispatcherHandle msg).2 "stream_headers" = true
       ∧ opsSetAttr (dispatcherHandle msg).2 "is_streaming" = true)
  ∧ (msg.action = "proxy_stream_end" →
       opsSetAttr (dispatcherHandle msg).2 "stream_done" = true)
  ∧ (msg.action ≠ "PING" → msg.action ≠ "RESPONSE" → msg.action ≠ "proxy_response" →
       (dispatcherHandle msg).2.isEmpty = true ∧ (dispatcherHandle msg).1.statusCode < 400)

/- ────────────────────────────────────────────────────────────────────────
   Edge Handler: response polling (http-proxy/main.go, pollAndReturn) and
   response building (buildBufferedResponse / buildS3StreamingResponse)
   ──────────────────────────────────────────────────────────────────────── -/

/-- An edge HTTP result (Lambda streaming response): status code, headers,
body shape. -/
structure EdgeResp where
  statusCode : Int
  headers : List (String × String)
  body : RespBody

/-- `is_streaming` check in `pollAndReturn`: the attribute exists, is a
BOOL, and is true. -/
def itemIsStreaming (it : Item) : Bool :=
  match getAttr it "is_streaming" with
  | some (AttrVal.b true) => true
  | _ => false

/-- `s3_response_key` as `pollAndReturn` reads it: present, of string type
and non-empty. -/
def itemS3Key (it : Item) : Option String :=
  match getAttr it "s3_response_key" with
  | some (AttrVal.s v) => if v = "" then none else some v
  | _ => none

/-- `s3_response_ready` flag: present, BOOL, true. -/
def itemS3ReadyFlag (it : Item) : Bool :=
  match getAttr it "s3_response_ready" with
  | some (AttrVal.b true) => true
  | _ => false

/-- `status == "completed"` check on the raw item. -/
def itemCompleted (it : Item) : Bool :=
  match getAttr it "status" with
  | some (AttrVal.s v) => v = "completed"
  | _ => false

/-- `response_status` with `strconv.Atoi`, defaulting to 200. -/
def itemRespStatus (it : Item) : Int :=
  match getAttr it "response_status" with
  | some (AttrVal.n v) => v
  | _ => 200

/-- `response_headers` map, keeping string-valued entries. -/
def itemRespHeaders (it : Item) : List (String × String) :=
  match getAttr it "response_headers" with
  | some (AttrVal.m m) =>
      m.filterMap (fun p => match p.2 with
        | AttrVal.s v => some (p.1, v)
        | _ => none)
  | _ => []

/-- `response_body` string, defaulting to empty. -/
def itemRespBody (it : Item) : String :=
  match getAttr it "response_body" with
  | some (AttrVal.s v) => v
  | _ => ""

/-- `buildBufferedResponse`: full inline body at once. -/
def buildBufferedResponse (it : Item) : EdgeResp :=
  ⟨itemRespStatus it, itemRespHeaders it, .inlineBody (itemRespBody it)⟩

/-- `buildS3StreamingResponse`: stream the S3 object at `key` to the caller
(the `Content-Length` top-up from the S3 object is part of the streamed
response and not modelled attribute by attribute). -/
def buildS3StreamingResponse (it : Item) (key : String) : EdgeResp :=
  ⟨itemRespStatus it, itemRespHeaders it, .s3Object key⟩

/-- `buildBufferedResponseFromItem`: prefer the staged S3 body when the key
is present and the ready flag is set, else the buffered inline body. -/
def buildBufferedResponseFromItem (it : Item) : EdgeResp :=
  match itemS3Key it with
  | some k => if itemS3ReadyFlag it then buildS3StreamingResponse it k
              else buildBufferedResponse it
  | none => buildBufferedResponse it

/-- Terminal outcome of `pollAndReturn`. -/
inductive PollOutcome
  | cancelled
  | timedOut
  | streaming (it : Item)
  | s3Ready (it : Item) (key : String)
  | buffered (it : Item)

/-- The per-item dispatch inside one poll tick, in source order: streaming
first, then the staged S3 response (key non-empty and ready flag true; a
key without the flag falls through), then `status=completed`; otherwise
keep polling. -/
def pollStep (it : Item) : Option PollOutcome :=
  if itemIsStreaming it then some (.streaming it)
  else
    match itemS3Key it with
    | some k =>
        if itemS3ReadyFlag it then some (.s3Ready it k)
        else if itemCompleted it then some (.buffered it) else none
    | none => if itemCompleted it then some (.buffered it) else none

/-- Number of 50 ms poll ticks inside the 180 s deadline. -/
def pollTimeoutTicks : Nat := 180 * 1000 / 50

/-- The `pollAndReturn` loop: at tick `k`, a fired caller-cancel wins
(499), then a `GetRawItem` whose error is skipped, then the per-item
dispatch; the fuel is the tick budget of the 180 s deadline (504 when it is
exhausted). -/
def pollLoop (cancel : Nat → Bool) (observe : Nat → Option Item) : Nat → Nat → PollOutcome
  | _, 0 => .timedOut
  | k, fuel + 1 =>
    if cancel k then .cancelled
    else match observe k with
      | none => pollLoop cancel observe (k + 1) fuel
      | some it =>
          match pollStep it with
          | some out => out
          | none => pollLoop cancel observe (k + 1) fuel

/-- `pollAndReturn` from tick 0 with the full 180 s budget. -/
def pollAndReturn (cancel : Nat → Bool) (observe : Nat → Option Item) : PollOutcome :=
  pollLoop cancel observe 0 pollTimeoutTicks

/-- The store operations the `pollAndReturn` loop issues: one read per
tick, nothing else — in particular no delete and no update, whatever the
outcome. -/
def pollLoopOps (rid : String) (cancel : Nat → Bool) (observe : Nat → Option Item) :
    Nat → Nat → List StoreOp
  | _, 0 => []
  | k, fuel + 1 =>
    if cancel k then []
    else StoreOp.get rid ::
      (match observe k with
       | none => pollLoopOps rid cancel observe (k + 1) fuel
       | some it =>
           match pollStep it with
           | some _ => []
           | none => pollLoopOps rid cancel observe (k + 1) fuel)

/-- Whether an item observation is quiet (no terminal condition) at a tick:
either the read failed or the item triggers none of the three conditions. -/
def quietPollObs (observe : Nat → Option Item) (j : Nat) : Bool :=
  match observe j with
  | some it => (pollStep it).isNone
  | none => true

/- ────────────────────────────────────────────────────────────────────────
   Edge Handler: poll endpoint (http-proxy/main.go, handlePollResponse)
   ──────────────────────────────────────────────────────────────────────── -/

/-- `handlePollResponse`: 404 when the entry is missing, has no `status`
attribute, or its `status` is not of string type; 202 with a `{status}`
JSON body for `pending`/`waiting_upload`; the buffered or staged response
once `completed`; 202 with the raw status string otherwise. -/
def handlePollResponse (item : Option Item) : EdgeResp :=
  match item with
  | none => ⟨404, [("Content-Type", "application/json")], .errJson "Request not found"⟩
  | some it =>
      match getAttr it "status" with
      | some (AttrVal.s v) =>
          if v = "pending" || v = "waiting_upload" then
            ⟨202, [("Content-Type", "application/json")], .statusJson v⟩
          else if v = "completed" then buildBufferedResponseFromItem it
          else ⟨202, [("Content-Type", "application/json")], .statusJson v⟩
      | some _ => ⟨404, [("Content-Type", "application/json")], .errJson "Request not found"⟩
      | none => ⟨404, [("Content-Type", "application/json")], .errJson "Request not found"⟩

/- ────────────────────────────────────────────────────────────────────────
   Tunnel registry: reconnect grace window (http-proxy/main.go,
   waitForTunnelReconnect + handleProxy) and lifecycle hooks
   (tunnel-connect, tunnel-disconnect, create-tunnel, delete-tunnel)
   ──────────────────────────────────────────────────────────────────────── -/

/-- A `models.Tunnel` record as the core code consults it (`connection_id`
is a plain Go string whose zero value `""` stands for an absent
attribute). -/
structure GoTunnel where
  status : String
  connectionID : String
  updatedAt : Nat
deriving DecidableEq

/-- `tunnel.Status == active && tunnel.ConnectionID != ""`. -/
def tunnelActiveConn (t : GoTunnel) : Bool :=
  decide (t.status = "active") && decide (t.connectionID ≠ "")

/-- Default `TUNNEL_RECONNECT_GRACE_PERIOD`: 30 s, in milliseconds. -/
def reconnectGraceDefaultMs : Nat := 30000

/-- The grace-window poll cadence: 500 ms per tick. -/
def graceTickMs : Nat := 500

/-- The recent-activity window: 5 minutes, in milliseconds. -/
def recentActiveWindowMs : Nat := 5 * 60 * 1000

/-- The 500 ms polling loop of `waitForTunnelReconnect`: at tick `k` read
the tunnel (errors are skipped) and return it once it is active with a
non-empty connection id; the fuel is the number of ticks the deadline
admits. -/
def graceTicks (observe : Nat → Option GoTunnel) : Nat → Nat → Option GoTunnel
  | _, 0 => none
  | k, fuel + 1 =>
    match observe k with
    | some t => if tunnelActiveConn t then some t else graceTicks observe (k + 1) fuel
    | none => graceTicks observe (k + 1) fuel

/-- `waitForTunnelReconnect`: give up immediately unless the tunnel was
updated within the last 5 minutes; otherwise poll every 500 ms until the
grace deadline (`graceMs / 500` ticks fire before `time.Now().After`
trips). -/
def waitForTunnelReconnect (sinceUpdatedMs : Nat) (graceMs : Nat)
    (observe : Nat → Option GoTunnel) : Option GoTunnel :=
  if sinceUpdatedMs > recentActiveWindowMs then none
  else graceTicks observe 0 (graceMs / graceTickMs)

/-- Whether a grace-window observation is quiet (tunnel still not active
with a connection) at a tick. -/
def quietTunnelObs (observe : Nat → Option GoTunnel) (j : Nat) : Bool :=
  match observe j with
  | some t => !tunnelActiveConn t
  | none => true

/-- The `handleProxy` gate on the resolved tunnel: proceed if active with a
connection; otherwise wait for a reconnect and return 503 when the wait
fails. -/
def handleProxyTunnelGate (t : GoTunnel) (sinceUpdatedMs graceMs : Nat)
    (observe : Nat → Option GoTunnel) : Except Int GoTunnel :=
  if tunnelActiveConn t then .ok t
  else
    match waitForTunnelReconnect sinceUpdatedMs graceMs observe with
    | some t2 => .ok t2
    | none => .error 503

/-- The tunnels table: `tunnel_id` → record. -/
abbrev Registry := List (String × GoTunnel)

/-- `GetItem` on the tunnels table. -/
def regLookup (r : Registry) (tid : String) : Option GoTunnel :=
  (r.find? (fun p => p.1 = tid)).map (fun p => p.2)

/-- `UpdateItem` on the tunnels table: replace the record under `tid`. -/
def regSet (r : Registry) (tid : String) (t : GoTunnel) : Registry :=
  r.map (fun p => if p.1 = tid then (tid, t) else p)

/-- `PutItem` of a fresh tunnel record. -/
def regInsert (r : Registry) (tid : String) (t : GoTunnel) : Registry :=
  (tid, t) :: r

/-- `DeleteItem` of a tunnel record. -/
def regDelete (r : Registry) (tid : String) : Registry :=
  r.filter (fun p => p.1 ≠ tid)

/-- The registry mutations the sources perform.
`createTunnel` (create-tunnel/main.go): a fresh record with
`status=inactive` and no `connection_id`.
`bind` (tunnel-connect/main.go): one update setting `connection_id`,
`status=active` and `updated_at` on an existing tunnel; API Gateway
connection ids are non-empty, recorded as the hypothesis `hcid`.
`unbind` (the disconnect handler in tunnel-proxy/main.go): locate the
tunnel whose `connection_id` matches, then one update setting
`status=inactive`, stamping `updated_at` and removing `connection_id`.
`deleteTunnel` (delete-tunnel/main.go): remove the record. -/
inductive RegStep : Registry → Registry → Prop
  | createTunnel (r : Registry) (tid : String) (now : Nat) :
      RegStep r (regInsert r tid ⟨"inactive", "", now⟩)
  | bind (r : Registry) (tid cid : String) (now : Nat) (t : GoTunnel)
      (hex : regLookup r tid = some t) (hcid : cid ≠ "") :
      RegStep r (regSet r tid ⟨"active", cid, now⟩)
  | unbind (r : Registry) (tid cid : String) (now : Nat) (t : GoTunnel)
      (hex : regLookup r tid = some t) (hconn : t.connectionID = cid) :
      RegStep r (regSet r tid ⟨"inactive", "", now⟩)
  | deleteTunnel (r : Registry) (tid : String) :
      RegStep r (regDelete r tid)

/-- Registry states reachable from the empty table through the mutations
of the sources. -/
inductive RegReachable : Registry → Prop
  | empty : RegReachable []
  | step {r r' : Registry} : RegReachable r → RegStep r r' → RegReachable r'

/-- The tunnel invariant: `status=active` ⇔ `connection_id ≠ ∅`. -/
def tunnelInv (t : GoTunnel) : Prop := t.status = "active" ↔ t.connectionID ≠ ""

/-- Entrywise registry invariant. -/
def regInvAll (r : Registry) : Prop := ∀ p ∈ r, tunnelInv p.2

/- ────────────────────────────────────────────────────────────────────────
   Helper lemmas: chunk splitting and reassembly
   ──────────────────────────────────────────────────────────────────────── -/

/-- `flatMap` over `range n` only depends on values below `n`. -/
theorem flatMap_range_congr (f g : Nat → Bytes) (n : Nat)
    (h : ∀ i, i < n → f i = g i) :
    (List.range n).flatMap f = (List.range n).flatMap g := by
  rw [List.flatMap_def, List.flatMap_def]
  congr 1
  exact List.map_congr_left (fun i hi => h i (List.mem_range.mp hi))

/-- Concatenating the `c`-sized slices of a list, enough of them to cover
its length, gives the list back. -/
theorem chunks_flatMap_eq (c : Nat) (_hc : 0 < c) :
    ∀ (n : Nat) (l : Bytes), l.length ≤ n * c →
      (List.range n).flatMap (fun i => (l.drop (i * c)).take c) = l := by
  intro n
  induction n with
  | zero =>
      intro l hl
      simp only [Nat.zero_mul, Nat.le_zero, List.length_eq_zero] at hl
      simp [hl]
  | succ n ih =>
      intro l hl
      rw [List.range_succ_eq_map, List.flatMap_cons, List.flatMap_map]
      have hrest :
          ((List.range n).flatMap fun a => (l.drop (Nat.succ a * c)).take c)
            = l.drop c := by
        have hstep :
            ((List.range n).flatMap fun a => (l.drop (Nat.succ a * c)).take c)
              = (List.range n).flatMap fun a => ((l.drop c).drop (a * c)).take c := by
          apply flatMap_range_congr
          intro i _
          rw [List.drop_drop, Nat.succ_mul, Nat.add_comm (i * c) c]
        rw [hstep]
        apply ih
        have hsm : (n + 1) * c = n * c + c := Nat.succ_mul n c
        have hld := l.length_drop c
        omega
      rw [hrest]
      simp only [Nat.zero_mul, List.drop_zero]
      exact List.take_append_drop c l

/-- The edge's chunk `i` equals the drop/take normal form. -/
theorem requestChunk_eq (body : Bytes) (i : Nat) :
    requestChunk body i = (body.drop (i * wsChunkSize)).take wsChunkSize := by
  have h0 : requestChunk body i
      = (body.take (min (i * wsChunkSize + wsChunkSize) body.length)).drop
          (i * wsChunkSize) := rfl
  rw [h0]
  rcases Nat.le_total (i * wsChunkSize + wsChunkSize) body.length with h | h
  · rw [min_eq_left h, List.drop_take]
    congr 1
    omega
  · rw [min_eq_right h, List.take_length]
    have h1 : (body.drop (i * wsChunkSize)).length ≤ wsChunkSize := by
      have := body.length_drop (i * wsChunkSize)
      omega
    rw [List.take_of_length_le h1]

/-- After the agent buffers the edge's chunk frames `0..n-1`, its buffer
for `rid` holds exactly those chunks. -/
theorem agentRun_chunkFrames (rid : String) (body : Bytes) (n : Nat) :
    ((List.range n).map (fun i => Frame.proxyChunk rid i (requestChunk body i))).foldl
        agentStep (emptyBuffers, none)
      = (chunkBuffersOf rid body n, none) := by
  induction n with
  | zero =>
      simp only [List.range_zero, List.map_nil, List.foldl_nil]
      refine Prod.ext ?_ rfl
      funext r j
      simp [emptyBuffers, chunkBuffersOf]
  | succ n ih =>
      rw [List.range_succ, List.map_append, List.foldl_append, ih]
      simp only [List.map_cons, List.map_nil, List.foldl_cons, List.foldl_nil, agentStep]
      refine Prod.ext ?_ rfl
      funext r j
      simp only [handleProxyChunk, chunkBuffersOf]
      by_cases hr : r = rid
      · subst hr
        by_cases hj : j = n
        · subst hj
          simp
        · have hlt : j < n + 1 ↔ j < n := by omega
          simp [hj, hlt]
      · simp [chunkBuffersOf, hr]

/-- Reassembling a full buffer of the edge's chunks yields the original
body. -/
theorem assembleChunks_full (rid : String) (body : Bytes)
    (h : body.length > wsChunkSize) :
    assembleChunks (chunkBuffersOf rid body (totalChunksFor body) rid)
        (totalChunksFor body) = body := by
  unfold assembleChunks
  have hN : totalChunksFor body = (body.length + wsChunkSize - 1) / wsChunkSize := by
    unfold totalChunksFor
    rw [if_pos h]
  have hcongr :
      (List.range (totalChunksFor body)).flatMap
          (fun i => (chunkBuffersOf rid body (totalChunksFor body) rid i).getD [])
        = (List.range (totalChunksFor body)).flatMap
            (fun i => (body.drop (i * wsChunkSize)).take wsChunkSize) := by
    apply flatMap_range_congr
    intro i hi
    simp [chunkBuffersOf, hi, requestChunk_eq]
  rw [hcongr]
  apply chunks_flatMap_eq wsChunkSize (by simp [wsChunkSize])
  rw [hN]
  unfold wsChunkSize
  omega

/-- With no `s3_request_get_url`, the agent forwards either the assembled
chunks (when `total_chunks > 0`) or the frame body. -/
theorem agentHandleProxy_noS3 (rid : String) (hrid : rid ≠ "")
    (fetch : Except String Bytes) (chunks : ChunkBuffer) (fb : Bytes) (n : Nat) :
    agentHandleProxy rid "" fetch chunks fb n
      = AgentOutcome.forward (if 0 < n then assembleChunks chunks n else fb) := by
  unfold agentHandleProxy
  rw [if_neg hrid]
  simp

/- ────────────────────────────────────────────────────────────────────────
   Claim theorems C3 and C9
   ──────────────────────────────────────────────────────────────────────── -/

/-- Claim C3: for every inbound request body, if its length exceeds
`wsChunkSize` (90 KiB) the edge sends `⌈|body|/90KiB⌉` `proxy_chunk` frames
with chunk indices `0..N-1` in increasing order followed by a `proxy` frame
with empty body and `total_chunks = N`, otherwise a single inline `proxy`
frame; and the agent's reassembly of the received frames yields a body
byte-identical to the original. -/
theorem c3_chunk_split_roundtrip (rid put key : String) (hrid : rid ≠ "")
    (body : Bytes) :
    edgeFrames rid put key body
      = (if body.length > wsChunkSize then
           ((List.range (totalChunksFor body)).map
               (fun i => Frame.proxyChunk rid i (requestChunk body i)))
             ++ [Frame.proxy rid [] (totalChunksFor body) put key]
         else [Frame.proxy rid body 0 put key])
    ∧ (body.length > wsChunkSize →
        totalChunksFor body = (body.length + wsChunkSize - 1) / wsChunkSize)
    ∧ (agentRun (edgeFrames rid put key body)).2
        = some (AgentOutcome.forward body) := by
  refine ⟨rfl, ?_, ?_⟩
  · intro h
    unfold totalChunksFor
    rw [if_pos h]
  · by_cases h : body.length > wsChunkSize
    · have hN : 0 < totalChunksFor body := by
        unfold totalChunksFor
        rw [if_pos h]
        unfold wsChunkSize at h ⊢
        omega
      unfold agentRun edgeFrames
      rw [if_pos h, List.foldl_append, agentRun_chunkFrames rid body (totalChunksFor body)]
      simp only [List.foldl_cons, List.foldl_nil, agentStep]
      rw [agentHandleProxy_noS3 rid hrid, if_pos hN, assembleChunks_full rid body h]
    · unfold agentRun edgeFrames
      rw [if_neg h]
      simp only [List.foldl_cons, List.foldl_nil, agentStep]
      rw [agentHandleProxy_noS3 rid hrid]
      simp

/-- Witness for C3 at a concrete body. -/
theorem c3_chunk_split_roundtrip_witness :
    (agentRun (edgeFrames "r" "" "" [1, 2, 3])).2
      = some (AgentOutcome.forward [1, 2, 3]) :=
  (c3_chunk_split_roundtrip "r" "" "" (by decide) [1, 2, 3]).2.2

/-- Claim C9: when the agent receives a `proxy` frame with
`total_chunks = n > 0`, the body it forwards to the local server is the
concatenation of exactly the chunks present in its buffer at that moment,
each missing index contributing the empty string, and the outcome is a
plain forward — no error is detected or reported for missing chunks. -/
theorem c9_missing_chunks_truncate (rid : String) (hrid : rid ≠ "")
    (chunks : ChunkBuffer) (frameBody : Bytes) (n : Nat) (hn : 0 < n) :
    agentHandleProxy rid "" (Except.ok []) chunks frameBody n
      = AgentOutcome.forward ((List.range n).flatMap (fun i => (chunks i).getD [])) := by
  rw [agentHandleProxy_noS3 rid hrid, if_pos hn]
  rfl

/-- Witness for C9: three expected chunks with index 1 missing assemble to
the truncated concatenation and are still forwarded. -/
theorem c9_missing_chunks_truncate_witness :
    agentHandleProxy "r" "" (Except.ok [])
        (fun i => if i = 0 then some [1] else if i = 2 then some [3] else none) [] 3
      = AgentOutcome.forward [1, 3] :=
  (c9_missing_chunks_truncate "r" (by decide)
      (fun i => if i = 0 then some [1] else if i = 2 then some [3] else none)
      [] 3 (by decide)).trans (by decide)

/- ────────────────────────────────────────────────────────────────────────
   Claim C4: agent staging decision
   ──────────────────────────────────────────────────────────────────────── -/

/-- Claim C4, corrected: a `text/event-stream` response enters SSE mode
before any size-based choice; for non-SSE responses the agent stages the
body to S3 exactly when both presigned handles are present and the body
exceeds `s3UploadThreshold` or the content type is binary — the serialized
terminal frame size (`fMAX`) plays no part in the staging decision. -/
theorem c4_staging_decision (rid : String) (code : Nat)
    (hdrs : List (String × String)) (ct : String) (body : Bytes)
    (put key : String) :
    (∀ uploadOk, goHasSub (strBytes "text/event-stream") (strBytes ct) = true →
        agentResponseMode rid code hdrs ct body put key uploadOk = .sse)
    ∧ (goHasSub (strBytes "text/event-stream") (strBytes ct) = false →
        put ≠ "" → key ≠ "" →
        (body.length > s3UploadThreshold ∨ isBinaryContentType (strBytes ct) = true) →
        agentResponseMode rid code hdrs ct body put key true = .staged)
    ∧ (agentResponseMode rid code hdrs ct body put key true = .staged →
        (put ≠ "" ∧ key ≠ ""
          ∧ (body.length > s3UploadThreshold ∨ isBinaryContentType (strBytes ct) = true))) := by
  refine ⟨?_, ?_, ?_⟩
  · intro uploadOk hs
    simp [agentResponseMode, hs]
  · intro hs hput hkey hor
    have hb : (decide (put ≠ "") && decide (key ≠ "")
        && (decide (body.length > s3UploadThreshold)
            || isBinaryContentType (strBytes ct))) = true := by
      simp only [Bool.and_eq_true, decide_eq_true_eq, Bool.or_eq_true]
      exact ⟨⟨hput, hkey⟩, hor⟩
    unfold agentResponseMode
    rw [if_neg (by simp [hs]), if_pos (by simp only [Bool.and_true]; exact hb)]
  · intro h
    unfold agentResponseMode at h
    by_cases hs : goHasSub (strBytes "text/event-stream") (strBytes ct) = true
    · rw [if_pos hs] at h
      exact absurd h (by simp)
    · rw [if_neg hs] at h
      by_cases hb : ((decide (put ≠ "") && decide (key ≠ "")
          && (decide (body.length > s3UploadThreshold)
              || isBinaryContentType (strBytes ct))) && true) = true
      · have hb2 := hb
        simp only [Bool.and_true, Bool.and_eq_true, decide_eq_true_eq,
          Bool.or_eq_true] at hb2
        exact ⟨hb2.1.1, hb2.1.2, hb2.2⟩
      · rw [if_neg hb] at h
        dsimp only at h
        split at h <;> exact absurd h (by simp)

/-- Witness for C4 (corrected): a binary response with a presigned handle
is staged, and an SSE content type enters SSE mode. -/
theorem c4_staging_decision_witness :
    agentResponseMode "r" 200 [] "video/mp4" [] "u" "k" true = RespMode.staged :=
  (c4_staging_decision "r" 200 [] "video/mp4" [] "u" "k").2.1
    (by decide) (by decide) (by decide) (Or.inr (by decide))

/-- Counterexample to claim C4 as stated: a 2-byte `video/mp4` response
with a presigned handle is staged to S3 even though its serialized terminal
frame is far below `fMAX`, so staging is not restricted to frames that
would exceed the ceiling. -/
theorem c4_staging_counterexample :
    ¬ c4StagingOnlyWhen "r1" 200 [("Content-Type", "video/mp4")] "video/mp4"
        (strBytes "hi") "https://u.example" "responses/r1/body" true := by
  unfold c4StagingOnlyWhen
  decide

/- ────────────────────────────────────────────────────────────────────────
   Claims C1 and C2: the dispatcher
   ──────────────────────────────────────────────────────────────────────── -/

/-- Claim C1, corrected: on a `proxy_response` frame with a request id the
dispatcher issues exactly one update (an atomic patch with no prior read
and no removes) that always sets `status=completed`, `response_status`,
`response_headers` and the inline `response_body` — it never sets
`s3_response_key`, `s3_response_ready` or `total_chunks`, whatever the
frame carries. -/
theorem c1_proxy_response_patch (msg : WsMessage)
    (ha : msg.action = "proxy_response")
    (hrid : dataStr msg.data "request_id" ≠ "") :
    dispatcherHandle msg =
      (⟨200, .msgJson "Proxy response processed"⟩,
       [StoreOp.update (dataStr msg.data "request_id")
          [("status", AttrVal.s "completed"),
           ("response_status", AttrVal.n (dataNumD msg.data "status_code" 200)),
           ("response_headers",
            AttrVal.m ((dataHeaders msg.data "response_headers").map
              (fun p => (p.1, AttrVal.s p.2)))),
           ("response_body", AttrVal.s (dataStr msg.data "response_body"))] []]) := by
  unfold dispatcherHandle
  rw [if_neg (by rw [ha]; decide), if_neg (by rw [ha]; decide), if_pos ha]
  unfold handleProxyResponse
  rw [if_neg hrid]

/-- Witness for C1 (corrected) at a concrete `proxy_response` frame. -/
theorem c1_proxy_response_patch_witness :
    dispatcherHandle ⟨"proxy_response", [("request_id", GoVal.str "r1")]⟩ =
      (⟨200, .msgJson "Proxy response processed"⟩,
       [StoreOp.update "r1"
          [("status", AttrVal.s "completed"),
           ("response_status", AttrVal.n 200),
           ("response_headers", AttrVal.m []),
           ("response_body", AttrVal.s "")] []]) :=
  c1_proxy_response_patch ⟨"proxy_response", [("request_id", GoVal.str "r1")]⟩
    rfl (by decide)

/-- Counterexample to claim C1 as stated: a `proxy_response` frame carrying
`s3_response_key` is patched with the inline (empty) `response_body` and
without `s3_response_key`/`s3_response_ready`, violating the claimed
three-way alternative. -/
theorem c1_counterexample :
    ¬ c1ClaimAt ⟨"proxy_response",
        [("request_id", GoVal.str "r1"), ("status_code", GoVal.num 200),
         ("response_headers", GoVal.obj []), ("response_body", GoVal.str ""),
         ("s3_response_key", GoVal.str "responses/r1/body")]⟩ := by
  unfold c1ClaimAt
  decide

/-- Claim C2, corrected: the dispatcher recognises only `PING`, `RESPONSE`
and `proxy_response`; every other action — including
`proxy_response_chunk`, `proxy_stream_start`, `proxy_stream_chunk` and
`proxy_stream_end` — is answered with a 400 error response and produces no
store operation at all. -/
theorem c2_unknown_action_rejected (a : String) (d : List (String × GoVal))
    (h1 : a ≠ "PING") (h2 : a ≠ "RESPONSE") (h3 : a ≠ "proxy_response") :
    dispatcherHandle ⟨a, d⟩
      = (⟨400, .errJson ("Unknown message action: " ++ a)⟩, []) := by
  unfold dispatcherHandle
  rw [if_neg h1, if_neg h2, if_neg h3]

/-- Witness for C2 (corrected): a `proxy_stream_start` frame is answered
with a 400 error and no patch. -/
theorem c2_unknown_action_rejected_witness :
    dispatcherHandle ⟨"proxy_stream_start", []⟩
      = (⟨400, .errJson "Unknown message action: proxy_stream_start"⟩, []) :=
  c2_unknown_action_rejected "proxy_stream_start" []
    (by decide) (by decide) (by decide)

/-- Counterexample to claim C2 as stated: a `proxy_response_chunk` frame
does not get a `stream_chunk_0` patch — the dispatcher answers it with a
400 error and writes nothing. -/
theorem c2_counterexample :
    ¬ c2ClaimAt ⟨"proxy_response_chunk",
        [("request_id", GoVal.str "r1"), ("chunk_index", GoVal.num 0),
         ("data", GoVal.str "x")]⟩ := by
  unfold c2ClaimAt
  decide

/- ────────────────────────────────────────────────────────────────────────
   Claim C5: reconnect grace window
   ──────────────────────────────────────────────────────────────────────── -/

/-- A tunnel returned by the grace-window poll loop is active with a
non-empty connection id. -/
theorem graceTicks_some_active (observe : Nat → Option GoTunnel) :
    ∀ fuel k t, graceTicks observe k fuel = some t → tunnelActiveConn t = true := by
  intro fuel
  induction fuel with
  | zero =>
      intro k t h
      simp [graceTicks] at h
  | succ n ih =>
      intro k t h
      cases ho : observe k with
      | none =>
          simp only [graceTicks, ho] at h
          exact ih _ _ h
      | some t2 =>
          simp only [graceTicks, ho] at h
          by_cases ha : tunnelActiveConn t2 = true
          · rw [if_pos ha] at h
            cases h
            exact ha
          · rw [if_neg ha] at h
            exact ih _ _ h

/-- The grace-window poll loop returns nothing over a quiet window. -/
theorem graceTicks_none_of_quiet (observe : Nat → Option GoTunnel) :
    ∀ fuel k, (∀ j, j < fuel → quietTunnelObs observe (k + j) = true) →
      graceTicks observe k fuel = none := by
  intro fuel
  induction fuel with
  | zero => intro k _; rfl
  | succ n ih =>
      intro k hq
      have hqnext : ∀ j, j < n → quietTunnelObs observe (k + 1 + j) = true := by
        intro j hj
        have h2 := hq (j + 1) (by omega)
        have h3 : k + 1 + j = k + (j + 1) := by omega
        rw [h3]
        exact h2
      have h0 := hq 0 (by omega)
      unfold quietTunnelObs at h0
      cases ho : observe k with
      | none =>
          simp only [graceTicks, ho]
          exact ih (k + 1) hqnext
      | some t2 =>
          rw [Nat.add_zero, ho] at h0
          simp only [graceTicks, ho]
          rw [if_neg (by simp_all)]
          exact ih (k + 1) hqnext

/-- Skipping a quiet interval of the grace-window poll loop. -/
theorem graceTicks_reach (observe : Nat → Option GoTunnel) :
    ∀ d k fuel, (∀ j, j < d → quietTunnelObs observe (k + j) = true) →
      graceTicks observe k (d + fuel) = graceTicks observe (k + d) fuel := by
  intro d
  induction d with
  | zero =>
      intro k fuel _
      simp
  | succ n ih =>
      intro k fuel hq
      have hqnext : ∀ j, j < n → quietTunnelObs observe (k + 1 + j) = true := by
        intro j hj
        have h2 := hq (j + 1) (by omega)
        have h3 : k + 1 + j = k + (j + 1) := by omega
        rw [h3]
        exact h2
      have h0 := hq 0 (by omega)
      unfold quietTunnelObs at h0
      rw [Nat.succ_add]
      have hnext : graceTicks observe (k + 1) (n + fuel)
          = graceTicks observe (k + (n + 1)) fuel := by
        rw [ih (k + 1) fuel hqnext]
        congr 1
        omega
      cases ho : observe k with
      | none =>
          simp only [graceTicks, ho]
          exact hnext
      | some t2 =>
          rw [Nat.add_zero, ho] at h0
          simp only [graceTicks, ho]
          rw [if_neg (by simp_all)]
          exact hnext

/-- A tunnel returned by `waitForTunnelReconnect` is active with a
connection. -/
theorem waitForTunnelReconnect_some_active (sinceMs graceMs : Nat)
    (observe : Nat → Option GoTunnel) (t2 : GoTunnel)
    (h : waitForTunnelReconnect sinceMs graceMs observe = some t2) :
    tunnelActiveConn t2 = true := by
  unfold waitForTunnelReconnect at h
  by_cases hs : sinceMs > recentActiveWindowMs
  · rw [if_pos hs] at h
    cases h
  · rw [if_neg hs] at h
    exact graceTicks_some_active observe _ 0 t2 h

/-- Claim C5: when the resolved tunnel is not active with a connection id,
the edge polls the registry every 500 ms for up to the grace period
(default 30 s = 60 polls) only if the tunnel was updated within the last
5 minutes; it proceeds exactly with a tunnel that became active with a
non-empty connection id, and returns 503 when the tunnel was not recently
active or the whole window stays quiet. -/
theorem c5_reconnect_grace (t : GoTunnel) (sinceMs graceMs : Nat)
    (observe : Nat → Option GoTunnel) :
    reconnectGraceDefaultMs / graceTickMs = 60
    ∧ (sinceMs > recentActiveWindowMs → tunnelActiveConn t = false →
        handleProxyTunnelGate t sinceMs graceMs observe = .error 503)
    ∧ (∀ t2, handleProxyTunnelGate t sinceMs graceMs observe = .ok t2 →
        tunnelActiveConn t2 = true)
    ∧ (tunnelActiveConn t = false →
        (∀ j, j < graceMs / graceTickMs → quietTunnelObs observe j = true) →
        handleProxyTunnelGate t sinceMs graceMs observe = .error 503)
    ∧ (∀ k t2, tunnelActiveConn t = false → sinceMs ≤ recentActiveWindowMs →
        k < graceMs / graceTickMs →
        (∀ j, j < k → quietTunnelObs observe j = true) →
        observe k = some t2 → tunnelActiveConn t2 = true →
        handleProxyTunnelGate t sinceMs graceMs observe = .ok t2) := by
  refine ⟨rfl, ?_, ?_, ?_, ?_⟩
  · intro hs hinact
    unfold handleProxyTunnelGate
    rw [if_neg (by simp [hinact])]
    unfold waitForTunnelReconnect
    rw [if_pos hs]
  · intro t2 h
    unfold handleProxyTunnelGate at h
    by_cases hact : tunnelActiveConn t = true
    · rw [if_pos hact] at h
      cases h
      exact hact
    · rw [if_neg hact] at h
      cases hw : waitForTunnelReconnect sinceMs graceMs observe with
      | none => rw [hw] at h; cases h
      | some t3 =>
          rw [hw] at h
          cases h
          exact waitForTunnelReconnect_some_active sinceMs graceMs observe _ hw
  · intro hinact hq
    unfold handleProxyTunnelGate
    rw [if_neg (by simp [hinact])]
    unfold waitForTunnelReconnect
    by_cases hs : sinceMs > recentActiveWindowMs
    · rw [if_pos hs]
    · rw [if_neg hs]
      rw [graceTicks_none_of_quiet observe (graceMs / graceTickMs) 0
        (fun j hj => by simpa using hq j hj)]
  · intro k t2 hinact hs hk hq hobs hact
    unfold handleProxyTunnelGate
    rw [if_neg (by simp [hinact])]
    unfold waitForTunnelReconnect
    rw [if_neg (by omega)]
    have hsplit : graceMs / graceTickMs = k + (graceMs / graceTickMs - k) := by omega
    rw [hsplit, graceTicks_reach observe k 0 (graceMs / graceTickMs - k)
      (fun j hj => by simpa using hq j hj)]
    have hfuel : graceMs / graceTickMs - k = (graceMs / graceTickMs - k - 1) + 1 := by
      omega
    rw [hfuel]
    simp only [graceTicks, Nat.zero_add, hobs, hact, if_true]

/-- Witness for C5: with an inactive tunnel, a recent `updated_at`, and a
registry that reports an active tunnel at the 4th poll, the gate proceeds
with the reconnected tunnel. -/
theorem c5_reconnect_grace_witness :
    handleProxyTunnelGate ⟨"inactive", "", 0⟩ 1000 30000
        (fun k => if k = 3 then some ⟨"active", "c1", 0⟩ else none)
      = Except.ok ⟨"active", "c1", 0⟩ :=
  (c5_reconnect_grace ⟨"inactive", "", 0⟩ 1000 30000
      (fun k => if k = 3 then some ⟨"active", "c1", 0⟩ else none)).2.2.2.2
    3 ⟨"active", "c1", 0⟩ (by decide) (by decide) (by decide)
    (fun j hj => by interval_cases j <;> decide) (by decide) (by decide)

/- ────────────────────────────────────────────────────────────────────────
   Claim C6: the edge response poll loop
   ──────────────────────────────────────────────────────────────────────── -/

/-- The poll loop only ever reads the store: every operation it issues is a
`GetRawItem`, never an update or a delete. -/
theorem pollLoopOps_all_get (rid : String) (cancel : Nat → Bool)
    (observe : Nat → Option Item) :
    ∀ fuel k, (pollLoopOps rid cancel observe k fuel).all isGetOp = true := by
  intro fuel
  induction fuel with
  | zero => intro k; rfl
  | succ n ih =>
      intro k
      by_cases hc : cancel k = true
      · simp [pollLoopOps, hc]
      · simp only [pollLoopOps, if_neg hc]
        cases ho : observe k with
        | none => simp [isGetOp, ih (k + 1)]
        | some it =>
            cases hs : pollStep it with
            | none => simp [isGetOp, hs, ih (k + 1)]
            | some out => simp [isGetOp, hs]

/-- Skipping a quiet, uncancelled interval of the poll loop. -/
theorem pollLoop_reach (cancel : Nat → Bool) (observe : Nat → Option Item) :
    ∀ d k fuel, (∀ j, j < d → cancel (k + j) = false) →
      (∀ j, j < d → quietPollObs observe (k + j) = true) →
      pollLoop cancel observe k (d + fuel) = pollLoop cancel observe (k + d) fuel := by
  intro d
  induction d with
  | zero =>
      intro k fuel _ _
      simp
  | succ n ih =>
      intro k fuel hc hq
      have hcnext : ∀ j, j < n → cancel (k + 1 + j) = false := by
        intro j hj
        have h2 := hc (j + 1) (by omega)
        have h3 : k + 1 + j = k + (j + 1) := by omega
        rw [h3]
        exact h2
      have hqnext : ∀ j, j < n → quietPollObs observe (k + 1 + j) = true := by
        intro j hj
        have h2 := hq (j + 1) (by omega)
        have h3 : k + 1 + j = k + (j + 1) := by omega
        rw [h3]
        exact h2
      have hc0 : cancel k = false := by
        have := hc 0 (by omega)
        rwa [Nat.add_zero] at this
      have hq0 := hq 0 (by omega)
      unfold quietPollObs at hq0
      rw [Nat.add_zero] at hq0
      have hnext : pollLoop cancel observe (k + 1) (n + fuel)
          = pollLoop cancel observe (k + (n + 1)) fuel := by
        rw [ih (k + 1) fuel hcnext hqnext]
        congr 1
        omega
      rw [Nat.succ_add]
      cases ho : observe k with
      | none =>
          simp only [pollLoop, hc0, Bool.false_eq_true, if_false, ho]
          exact hnext
      | some it =>
          rw [ho] at hq0
          have hstep : pollStep it = none := Option.isNone_iff_eq_none.mp hq0
          simp only [pollLoop, hc0, Bool.false_eq_true, if_false, ho, hstep]
          exact hnext

/-- Claim C6: after pushing the proxy frame the edge polls the store at
50 ms ticks for at most 180 s (3600 ticks) and terminates with exactly one
of 499 (caller cancel), 504 (deadline, during which the loop never updates
or deletes the pending entry), or a response dispatched at the first tick
whose item satisfies a condition — streaming checked first, then the
staged-S3 key with its ready flag, then `status=completed`. -/
theorem c6_poll_and_return (rid : String) (cancel : Nat → Bool)
    (observe : Nat → Option Item) :
    pollTimeoutTicks = 3600
    ∧ (∀ fuel k, (pollLoopOps rid cancel observe k fuel).all isGetOp = true)
    ∧ ((∀ j, j < pollTimeoutTicks →
          cancel j = false ∧ quietPollObs observe j = true) →
        pollAndReturn cancel observe = .timedOut)
    ∧ (∀ k, k < pollTimeoutTicks → cancel k = true →
        (∀ j, j < k → cancel j = false ∧ quietPollObs observe j = true) →
        pollAndReturn cancel observe = .cancelled)
    ∧ (∀ k it out, k < pollTimeoutTicks →
        (∀ j, j ≤ k → cancel j = false) →
        (∀ j, j < k → quietPollObs observe j = true) →
        observe k = some it → pollStep it = some out →
        pollAndReturn cancel observe = out)
    ∧ (∀ it, (itemIsStreaming it = true → pollStep it = some (.streaming it))
        ∧ (itemIsStreaming it = false → ∀ key, itemS3Key it = some key →
            itemS3ReadyFlag it = true → pollStep it = some (.s3Ready it key))
        ∧ (itemIsStreaming it = false → itemS3Key it = none →
            itemCompleted it = true → pollStep it = some (.buffered it))) := by
  refine ⟨rfl, pollLoopOps_all_get rid cancel observe, ?_, ?_, ?_, ?_⟩
  · intro hq
    unfold pollAndReturn
    have hsplit : pollTimeoutTicks = pollTimeoutTicks + 0 := rfl
    rw [hsplit, pollLoop_reach cancel observe pollTimeoutTicks 0 0
      (fun j hj => by simpa using (hq j hj).1)
      (fun j hj => by simpa using (hq j hj).2)]
    rfl
  · intro k hk hc hq
    unfold pollAndReturn
    have hsplit : pollTimeoutTicks = k + (pollTimeoutTicks - k) := by omega
    rw [hsplit, pollLoop_reach cancel observe k 0 (pollTimeoutTicks - k)
      (fun j hj => by simpa using (hq j hj).1)
      (fun j hj => by simpa using (hq j hj).2)]
    have hfuel : pollTimeoutTicks - k = (pollTimeoutTicks - k - 1) + 1 := by omega
    rw [hfuel]
    simp [pollLoop, hc]
  · intro k it out hk hc hq hobs hstep
    unfold pollAndReturn
    have hsplit : pollTimeoutTicks = k + (pollTimeoutTicks - k) := by omega
    rw [hsplit, pollLoop_reach cancel observe k 0 (pollTimeoutTicks - k)
      (fun j hj => by simpa using hc j (by omega))
      (fun j hj => by simpa using hq j hj)]
    have hfuel : pollTimeoutTicks - k = (pollTimeoutTicks - k - 1) + 1 := by omega
    rw [hfuel]
    have hck : cancel k = false := hc k (by omega)
    simp only [pollLoop, Nat.zero_add, hck, Bool.false_eq_true, if_false, hobs, hstep]
  · intro it
    refine ⟨?_, ?_, ?_⟩
    · intro hstr
      unfold pollStep
      rw [if_pos hstr]
    · intro hstr key hkey hready
      unfold pollStep
      rw [if_neg (by simp [hstr])]
      simp [hkey, hready]
    · intro hstr hkey hcomp
      unfold pollStep
      rw [if_neg (by simp [hstr])]
      simp [hkey, hcomp]

/-- Witness for C6: with a caller that never disconnects and an entry that
is already completed at the first tick, the loop returns the buffered
response at once. -/
theorem c6_poll_and_return_witness :
    pollAndReturn (fun _ => false) (fun _ => some [("status", AttrVal.s "completed")])
      = PollOutcome.buffered [("status", AttrVal.s "completed")] :=
  (c6_poll_and_return "r" (fun _ => false)
      (fun _ => some [("status", AttrVal.s "completed")])).2.2.2.2.1
    0 [("status", AttrVal.s "completed")]
    (PollOutcome.buffered [("status", AttrVal.s "completed")])
    (by decide) (fun j _ => rfl) (fun j hj => absurd hj (by omega))
    rfl (by rfl)

/- ────────────────────────────────────────────────────────────────────────
   Claim C7: registry invariant
   ──────────────────────────────────────────────────────────────────────── -/

/-- Every single registry mutation preserves the entrywise invariant. -/
theorem regStep_preserves_inv {r r' : Registry} (h : RegStep r r')
    (hinv : regInvAll r) : regInvAll r' := by
  cases h with
  | createTunnel tid now =>
      intro p hp
      rcases List.mem_cons.mp hp with hnew | hold
      · subst hnew
        unfold tunnelInv
        simp
      · exact hinv p hold
  | bind tid cid now t hex hcid =>
      intro p hp
      rcases List.mem_map.mp hp with ⟨q, hq, hfq⟩
      by_cases hqt : q.1 = tid
      · rw [if_pos hqt] at hfq
        subst hfq
        unfold tunnelInv
        simpa using hcid
      · rw [if_neg hqt] at hfq
        subst hfq
        exact hinv q hq
  | unbind tid cid now t hex hconn =>
      intro p hp
      rcases List.mem_map.mp hp with ⟨q, hq, hfq⟩
      by_cases hqt : q.1 = tid
      · rw [if_pos hqt] at hfq
        subst hfq
        unfold tunnelInv
        simp
      · rw [if_neg hqt] at hfq
        subst hfq
        exact hinv q hq
  | deleteTunnel tid =>
      intro p hp
      exact hinv p (List.mem_of_mem_filter hp)

/-- Every reachable registry satisfies the entrywise invariant. -/
theorem regReachable_inv {r : Registry} (h : RegReachable r) : regInvAll r := by
  induction h with
  | empty => intro p hp; cases hp
  | step _ hstep ih => exact regStep_preserves_inv hstep ih

/-- Claim C7: in every registry state reachable through the lifecycle
mutations (create, bind, unbind, delete), every stored tunnel satisfies
`status=active ⇔ connection_id ≠ ∅`: the connect hook sets both fields in
one update and the disconnect hook clears both in one update. -/
theorem c7_registry_invariant (r : Registry) (h : RegReachable r)
    (tid : String) (t : GoTunnel) (hl : regLookup r tid = some t) :
    t.status = "active" ↔ t.connectionID ≠ "" := by
  have hinv := regReachable_inv h
  unfold regLookup at hl
  cases hf : r.find? (fun p => p.1 = tid) with
  | none => rw [hf] at hl; cases hl
  | some p =>
      rw [hf] at hl
      cases hl
      exact hinv p (List.mem_of_find?_eq_some hf)

/-- Witness for C7: create a tunnel, bind a connection; the resulting
record is active with a non-empty connection id. -/
theorem c7_registry_invariant_witness :
    (⟨"active", "c1", 1⟩ : GoTunnel).status = "active"
      ↔ (⟨"active", "c1", 1⟩ : GoTunnel).connectionID ≠ "" :=
  c7_registry_invariant
    (regSet (regInsert [] "t1" ⟨"inactive", "", 0⟩) "t1" ⟨"active", "c1", 1⟩)
    (RegReachable.step
      (RegReachable.step RegReachable.empty
        (RegStep.createTunnel [] "t1" 0))
      (RegStep.bind (regInsert [] "t1" ⟨"inactive", "", 0⟩) "t1" "c1" 1
        ⟨"inactive", "", 0⟩ rfl (by decide)))
    "t1" ⟨"active", "c1", 1⟩ rfl

/- ────────────────────────────────────────────────────────────────────────
   Claims C8 and C10: the poll endpoint
   ──────────────────────────────────────────────────────────────────────── -/

/-- Claim C8: `GET /poll/{request_id}` returns 404 when no entry (or no
string `status` attribute) exists, 202 with a `{status}` JSON body while
the status is `pending` or `waiting_upload`, and the buffered or staged
response (status, headers, body) once the status is `completed`. -/
theorem c8_poll_endpoint :
    (handlePollResponse none
      = ⟨404, [("Content-Type", "application/json")], .errJson "Request not found"⟩)
    ∧ (∀ it, getAttr it "status" = none →
        handlePollResponse (some it)
          = ⟨404, [("Content-Type", "application/json")], .errJson "Request not found"⟩)
    ∧ (∀ it v, getAttr it "status" = some (AttrVal.s v) →
        (v = "pending" ∨ v = "waiting_upload") →
        handlePollResponse (some it)
          = ⟨202, [("Content-Type", "application/json")], .statusJson v⟩)
    ∧ (∀ it, getAttr it "status" = some (AttrVal.s "completed") →
        handlePollResponse (some it) = buildBufferedResponseFromItem it
        ∧ (itemS3Key it = none →
            handlePollResponse (some it)
              = ⟨itemRespStatus it, itemRespHeaders it, .inlineBody (itemRespBody it)⟩)
        ∧ (∀ key, itemS3Key it = some key → itemS3ReadyFlag it = true →
            handlePollResponse (some it)
              = ⟨itemRespStatus it, itemRespHeaders it, .s3Object key⟩)) := by
  refine ⟨rfl, ?_, ?_, ?_⟩
  · intro it hst
    simp only [handlePollResponse, hst]
  · intro it v hst hv
    simp only [handlePollResponse, hst]
    rcases hv with hv | hv <;> subst hv <;> simp
  · intro it hst
    have hmain : handlePollResponse (some it) = buildBufferedResponseFromItem it := by
      simp only [handlePollResponse, hst]
      rfl
    refine ⟨hmain, ?_, ?_⟩
    · intro hkey
      rw [hmain]
      simp only [buildBufferedResponseFromItem, hkey]
      rfl
    · intro key hkey hready
      rw [hmain]
      simp only [buildBufferedResponseFromItem, hkey]
      rw [if_pos hready]
      rfl

/-- Witness for C8: a completed inline entry is returned as its buffered
response. -/
theorem c8_poll_endpoint_witness :
    handlePollResponse (some [("status", AttrVal.s "completed"),
        ("response_status", AttrVal.n 201), ("response_body", AttrVal.s "ok")])
      = ⟨201, [], RespBody.inlineBody "ok"⟩ :=
  ((c8_poll_endpoint.2.2.2
      [("status", AttrVal.s "completed"), ("response_status", AttrVal.n 201),
       ("response_body", AttrVal.s "ok")] rfl).2.1 rfl).trans rfl

/-- Claim C10: an entry whose status is none of `pending`,
`waiting_upload` or `completed` (for example `failed`) is answered exactly
like an in-progress entry: 202 with the raw status string in the JSON
body, indistinguishable in shape from the `pending` answer. -/
theorem c10_poll_terminal_failure (it : Item) (v : String)
    (hv : getAttr it "status" = some (AttrVal.s v))
    (h1 : v ≠ "pending") (h2 : v ≠ "waiting_upload") (h3 : v ≠ "completed") :
    handlePollResponse (some it)
      = ⟨202, [("Content-Type", "application/json")], .statusJson v⟩
    ∧ handlePollResponse (some [("status", AttrVal.s "pending")])
      = ⟨202, [("Content-Type", "application/json")], .statusJson "pending"⟩ := by
  constructor
  · simp only [handlePollResponse, hv]
    rw [if_neg (by simp [h1, h2]), if_neg h3]
  · rfl

/-- Witness for C10: a `failed` entry polls as 202 `{status: failed}`. -/
theorem c10_poll_terminal_failure_witness :
    handlePollResponse (some [("status", AttrVal.s "failed")])
      = ⟨202, [("Content-Type", "application/json")], RespBody.statusJson "failed"⟩ :=
  (c10_poll_terminal_failure [("status", AttrVal.s "failed")] "failed"
      rfl (by decide) (by decide) (by decide)).1

end TunnelSpec
